import Mathlib

/-!
Verification of the interaction-controller core of the `ada` frontend
(`src/frontend/app.js`): gesture classification, the emission gate,
the session lifecycle and the channel dispatcher, modelled as a shallow
embedding with explicit state passing and an event-step machine for the
asynchronous connect flow.
-/

/-- A single hand landmark: normalized image coordinates, `y` increasing
downward.  JS numbers are modelled as rationals. -/
structure Landmark where
  x : ℚ
  y : ℚ

/-- A landmark frame: 21 indexed points (0 = wrist, 4 = thumb tip,
8/12/16/20 = finger tips, 3/6/10/14/18 = proximal joints). -/
def LandmarkFrame := Fin 21 → Landmark

/-- The gesture symbols the classifier can return, named as the string
values used in `detectGesture`. -/
inductive GestureSymbol where
  | NONE
  | Open_Palm
  | Closed_Fist
  | Thumb_Up
deriving DecidableEq

/-- The string payload sent for a gesture, as in the JS source where the
symbol itself is the string published on the `gesture` topic. -/
def GestureSymbol.text : GestureSymbol → String
  | .NONE => "NONE"
  | .Open_Palm => "Open_Palm"
  | .Closed_Fist => "Closed_Fist"
  | .Thumb_Up => "Thumb_Up"

/-- `detectGesture` from `app.js` (lines 146-171): per-finger openness is
tip `y` strictly below joint `y`; all four open gives Open_Palm, all four
closed gives Thumb_Up or Closed_Fist depending on the thumb test, any
other combination gives NONE.  `thumbIsOpen` is computed in the source
but never read. -/
def detectGesture (landmarks : LandmarkFrame) : GestureSymbol :=
  let thumbIsOpen : Bool := decide ((landmarks 4).x < (landmarks 3).x)
  if (landmarks 8).y < (landmarks 6).y ∧ (landmarks 12).y < (landmarks 10).y ∧
      (landmarks 16).y < (landmarks 14).y ∧ (landmarks 20).y < (landmarks 18).y then
    GestureSymbol.Open_Palm
  else if ¬((landmarks 8).y < (landmarks 6).y) ∧ ¬((landmarks 12).y < (landmarks 10).y) ∧
      ¬((landmarks 16).y < (landmarks 14).y) ∧ ¬((landmarks 20).y < (landmarks 18).y) then
    if (landmarks 4).y < (landmarks 3).y ∧ (landmarks 4).y < (landmarks 8).y then
      GestureSymbol.Thumb_Up
    else
      GestureSymbol.Closed_Fist
  else
    GestureSymbol.NONE

/-- JavaScript `String.prototype.trim` whitespace: the WhiteSpace and
LineTerminator characters of ECMAScript. -/
def isJsWhitespace (c : Char) : Bool :=
  c = ' ' || c = '\t' || c = '\n' || c = '\r' || c = '\x0b' || c = '\x0c' ||
  c = '\u00A0' || c = '\u2028' || c = '\u2029' || c = '\uFEFF'

/-- JavaScript `String.prototype.trim`: drop whitespace from both ends. -/
def jsTrim (s : String) : String :=
  String.mk (((s.data.dropWhile isJsWhitespace).reverse.dropWhile isJsWhitespace).reverse)

/-- A topic-tagged data message handed to the transport
(`room.localParticipant.publishData`). -/
structure OutboundMessage where
  topic : String
  payload : String
deriving DecidableEq

/-- Observable effects of one synchronous step of the frontend: requests
issued to the token endpoint and the transport, and error log lines. -/
inductive Output where
  /-- `fetch(API_URL/token, ...)` issued. -/
  | tokenFetchStarted
  /-- `room.connect(LIVEKIT_URL, token)` issued. -/
  | roomConnectStarted
  /-- `room.localParticipant.setMicrophoneEnabled b` issued. -/
  | micOp (enabled : Bool)
  /-- `room.localParticipant.publishData` issued. -/
  | dataMessage (m : OutboundMessage)
  /-- `room.disconnect()` issued. -/
  | roomDisconnect
  /-- `addLog(..., "error")` in the `catch` of `connectToLiveKit`. -/
  | errorLog
deriving DecidableEq

/-- Where an in-flight `connectToLiveKit` invocation is suspended:
at the token fetch, at `room.connect`, or at `setMicrophoneEnabled`. -/
inductive ConnectPhase where
  | awaitToken
  | awaitRoomConnect
  | awaitMicEnable
deriving DecidableEq

/-- The module-level mutable state of `app.js`: `room` (tracked here only
by nullness), `isConnected`, `isMicOn`, `lastGesture`, `lastGestureTime`,
plus the suspension points of in-flight `connectToLiveKit` calls (the
source has no flag for these; the list records where each awaited call
is parked on the event loop). -/
structure AppState where
  roomExists : Bool
  isConnected : Bool
  isMicOn : Bool
  lastGesture : GestureSymbol
  lastGestureTime : Int
  inflight : List ConnectPhase
deriving DecidableEq

/-- Initial state: `room = null`, `isConnected = false`, `isMicOn = false`,
`lastGesture = "NONE"`, `lastGestureTime = 0`. -/
def initState : AppState :=
  { roomExists := false, isConnected := false, isMicOn := false,
    lastGesture := GestureSymbol.NONE, lastGestureTime := 0, inflight := [] }

/-- The synchronous prefix of `connectToLiveKit` (lines 38-66): bail out if
already connected, otherwise issue the token fetch and suspend. -/
def connectToLiveKit (s : AppState) : AppState × List Output :=
  if s.isConnected then (s, [])
  else ({ s with inflight := s.inflight ++ [ConnectPhase.awaitToken] },
        [Output.tokenFetchStarted])

/-- Resumption of `connectToLiveKit` when the token fetch settles for the
in-flight call at position `i`: on success assign `room = new Room(...)`
and issue `room.connect`; on failure (non-ok response or rejection) the
`catch` logs an error and the call ends. -/
def resolveToken (s : AppState) (i : Nat) (ok : Bool) : AppState × List Output :=
  match s.inflight.get? i with
  | some ConnectPhase.awaitToken =>
    if ok then
      ({ s with roomExists := true,
                inflight := s.inflight.set i ConnectPhase.awaitRoomConnect },
       [Output.roomConnectStarted])
    else
      ({ s with inflight := s.inflight.eraseIdx i }, [Output.errorLog])
  | _ => (s, [])

/-- Resumption when `room.connect` settles: on success set
`isConnected = true`, install listeners, and issue
`setMicrophoneEnabled(true)`; on failure the `catch` logs an error. -/
def resolveRoomConnect (s : AppState) (i : Nat) (ok : Bool) : AppState × List Output :=
  match s.inflight.get? i with
  | some ConnectPhase.awaitRoomConnect =>
    if ok then
      ({ s with isConnected := true,
                inflight := s.inflight.set i ConnectPhase.awaitMicEnable },
       [Output.micOp true])
    else
      ({ s with inflight := s.inflight.eraseIdx i }, [Output.errorLog])
  | _ => (s, [])

/-- Resumption when `setMicrophoneEnabled(true)` settles: on success set
`isMicOn = true`; on failure the `catch` logs an error. -/
def resolveMicEnable (s : AppState) (i : Nat) (ok : Bool) : AppState × List Output :=
  match s.inflight.get? i with
  | some ConnectPhase.awaitMicEnable =>
    if ok then
      ({ s with isMicOn := true, inflight := s.inflight.eraseIdx i }, [])
    else
      ({ s with inflight := s.inflight.eraseIdx i }, [Output.errorLog])
  | _ => (s, [])

/-- The `connectBtn` click handler (lines 219-234): connect branch calls
`connectToLiveKit`; disconnect branch calls `room.disconnect()` if a room
exists and sets `isConnected = false` (note: `room` is not nulled and
`isMicOn` is untouched). -/
def connectBtnClick (s : AppState) : AppState × List Output :=
  if ¬s.isConnected then
    connectToLiveKit s
  else
    ({ s with isConnected := false },
     if s.roomExists then [Output.roomDisconnect] else [])

/-- The `micBtn` click handler (lines 236-243): a no-op when `room` is
null, otherwise flip `isMicOn` and issue the transport mic operation with
the new value. -/
def micBtnClick (s : AppState) : AppState × List Output :=
  if ¬s.roomExists then (s, [])
  else
    ({ s with isMicOn := !s.isMicOn }, [Output.micOp (!s.isMicOn)])

/-- `sendChatMessage` (lines 106-120): trim the input; return if the
trimmed text is empty or `room` is null; otherwise publish the trimmed
text on the `chat_message` topic.  Note the guard is on `room`, not on
`isConnected`. -/
def sendChatMessage (s : AppState) (input : String) : AppState × List Output :=
  let text := jsTrim input
  if text = "" ∨ ¬s.roomExists then (s, [])
  else (s, [Output.dataMessage { topic := "chat_message", payload := text }])

/-- The emission gate and gesture dispatch, `updateGestureUI`
(lines 173-192): if `now - lastGestureTime > 2000` and the symbol differs
from `lastGesture`, update both fields and, when additionally `room` is
non-null and `isConnected`, publish the gesture text on the `gesture`
topic; otherwise change nothing. -/
def updateGestureUI (s : AppState) (gesture : GestureSymbol) (now : Int) :
    AppState × List Output :=
  if now - s.lastGestureTime > 2000 ∧ gesture ≠ s.lastGesture then
    let s2 := { s with lastGesture := gesture, lastGestureTime := now }
    if s.roomExists ∧ s.isConnected then
      (s2, [Output.dataMessage { topic := "gesture", payload := gesture.text }])
    else
      (s2, [])
  else
    (s, [])

/-- The body of the `for (const landmarks of results.multiHandLandmarks)`
loop in `onResults` (lines 131-141): classify the hand and, when the
gesture is not NONE, run `updateGestureUI`. -/
def processHand (now : Int) (acc : AppState × List Output) (landmarks : LandmarkFrame) :
    AppState × List Output :=
  let gesture := detectGesture landmarks
  if gesture ≠ GestureSymbol.NONE then
    let r := updateGestureUI acc.1 gesture now
    (r.1, acc.2 ++ r.2)
  else acc

/-- The MediaPipe results callback `onResults` (lines 124-144): the loop
visits every delivered hand in order. -/
def onResults (s : AppState) (hands : List LandmarkFrame) (now : Int) :
    AppState × List Output :=
  hands.foldl (processHand now) (s, [])

/-- `maxNumHands` from `hands.setOptions` (line 200): the landmark source
is configured to deliver at most one hand per frame. -/
def maxNumHands : Nat := 1

/-- External stimuli of the frontend: button clicks, chat submission,
settlement of the awaited async operations (indexed by the position of
the in-flight `connectToLiveKit` call), and a processed video frame. -/
inductive Event where
  | connectClick
  | tokenRes (i : Nat) (ok : Bool)
  | roomConnectRes (i : Nat) (ok : Bool)
  | micEnableRes (i : Nat) (ok : Bool)
  | micClick
  | sendClick (input : String)
  | frame (hands : List LandmarkFrame) (now : Int)

/-- One step of the single-threaded event loop. -/
def step (s : AppState) : Event → AppState × List Output
  | Event.connectClick => connectBtnClick s
  | Event.tokenRes i ok => resolveToken s i ok
  | Event.roomConnectRes i ok => resolveRoomConnect s i ok
  | Event.micEnableRes i ok => resolveMicEnable s i ok
  | Event.micClick => micBtnClick s
  | Event.sendClick input => sendChatMessage s input
  | Event.frame hands now => onResults s hands now

/-- Run a sequence of events from a state. -/
def run (s : AppState) : List Event → AppState
  | [] => s
  | e :: es => run (step s e).1 es

/-- A frame with all four finger tips strictly above their joints:
classifies as Open_Palm. -/
def palmFrame : LandmarkFrame := fun i =>
  if i.val = 8 ∨ i.val = 12 ∨ i.val = 16 ∨ i.val = 20 then
    { x := 0, y := 0 }
  else
    { x := 0, y := 1 }

/-- A frame with only the index finger open: classifies as NONE. -/
def mixedFrame : LandmarkFrame := fun i =>
  if i.val = 8 then { x := 0, y := 0 } else { x := 0, y := 1 }

/-- A frame with all fingers curled and the thumb tip above both the thumb
joint and the index tip: classifies as Thumb_Up. -/
def thumbFrame : LandmarkFrame := fun i =>
  if i.val = 4 then { x := 0, y := 0 } else { x := 0, y := 1 }

/-- A frame with everything at the same height: classifies as Closed_Fist. -/
def fistFrame : LandmarkFrame := fun _ => { x := 0, y := 1 }

/-- `palmFrame` with every `x` coordinate moved: used to check that `x`
never influences classification. -/
def palmFrameXShift : LandmarkFrame := fun i => { x := 7, y := (palmFrame i).y }

/-- The state after a fully successful connect: room present, connected,
microphone published. -/
def connectedState : AppState :=
  { roomExists := true, isConnected := true, isMicOn := true,
    lastGesture := GestureSymbol.NONE, lastGestureTime := 0, inflight := [] }

/-- The state while the first connect attempt is awaiting its token fetch. -/
def connectingState : AppState :=
  { roomExists := false, isConnected := false, isMicOn := false,
    lastGesture := GestureSymbol.NONE, lastGestureTime := 0,
    inflight := [ConnectPhase.awaitToken] }

/-- The connected state after a gesture was already recorded while
disconnected. -/
def connectedStateAfterPalm : AppState :=
  { connectedState with lastGesture := GestureSymbol.Open_Palm,
                        lastGestureTime := 2500 }

/-- A session history: successful connect followed by an explicit
disconnect via the connect button. -/
def disconnTrace : List Event :=
  [Event.connectClick, Event.tokenRes 0 true, Event.roomConnectRes 0 true,
   Event.micEnableRes 0 true, Event.connectClick]

/-! Helper lemmas. -/

/-- When the time-and-distinctness test passes, `updateGestureUI` writes the
gesture fields and publishes exactly when a room exists and the session is
connected. -/
theorem updateGestureUI_pass (s : AppState) (g : GestureSymbol) (now : Int)
    (h : now - s.lastGestureTime > 2000 ∧ g ≠ s.lastGesture) :
    updateGestureUI s g now =
      ({ s with lastGesture := g, lastGestureTime := now },
       if s.roomExists ∧ s.isConnected then
         [Output.dataMessage { topic := "gesture", payload := g.text }]
       else []) := by
  simp only [updateGestureUI]
  rw [if_pos h]
  by_cases hc : s.roomExists ∧ s.isConnected
  · rw [if_pos hc, if_pos hc]
  · rw [if_neg hc, if_neg hc]

/-- When the test fails, `updateGestureUI` changes nothing and emits
nothing. -/
theorem updateGestureUI_fail (s : AppState) (g : GestureSymbol) (now : Int)
    (h : ¬(now - s.lastGestureTime > 2000 ∧ g ≠ s.lastGesture)) :
    updateGestureUI s g now = (s, []) := by
  simp only [updateGestureUI]
  rw [if_neg h]

/-- Any data message produced by `updateGestureUI` is the gesture message,
and requires a room and a connected session. -/
theorem updateGestureUI_msgs (s : AppState) (g : GestureSymbol) (now : Int)
    (m : OutboundMessage)
    (hm : Output.dataMessage m ∈ (updateGestureUI s g now).2) :
    s.roomExists = true ∧ s.isConnected = true ∧
      m = { topic := "gesture", payload := g.text } := by
  by_cases hp : now - s.lastGestureTime > 2000 ∧ g ≠ s.lastGesture
  · rw [updateGestureUI_pass s g now hp] at hm
    by_cases hc : s.roomExists ∧ s.isConnected
    · rw [if_pos hc] at hm
      have hmm : m = { topic := "gesture", payload := g.text } := by
        simpa using hm
      exact ⟨hc.1, hc.2, hmm⟩
    · rw [if_neg hc] at hm
      simp at hm
  · rw [updateGestureUI_fail s g now hp] at hm
    simp at hm

/-- `updateGestureUI` never touches the session fields. -/
theorem updateGestureUI_session (s : AppState) (g : GestureSymbol) (now : Int) :
    (updateGestureUI s g now).1.roomExists = s.roomExists ∧
    (updateGestureUI s g now).1.isConnected = s.isConnected := by
  by_cases hp : now - s.lastGestureTime > 2000 ∧ g ≠ s.lastGesture
  · rw [updateGestureUI_pass s g now hp]
    exact ⟨rfl, rfl⟩
  · rw [updateGestureUI_fail s g now hp]
    exact ⟨rfl, rfl⟩

/-- One loop iteration threads the accumulated messages on the left. -/
theorem processHand_shift (now : Int) (acc : AppState × List Output)
    (lm : LandmarkFrame) :
    processHand now acc lm =
      ((processHand now (acc.1, []) lm).1,
       acc.2 ++ (processHand now (acc.1, []) lm).2) := by
  simp only [processHand]
  by_cases hg : detectGesture lm ≠ GestureSymbol.NONE
  · rw [if_pos hg, if_pos hg]
    simp
  · rw [if_neg hg, if_neg hg]
    simp

/-- One loop iteration never touches the session fields. -/
theorem processHand_session (now : Int) (acc : AppState × List Output)
    (lm : LandmarkFrame) :
    (processHand now acc lm).1.roomExists = acc.1.roomExists ∧
    (processHand now acc lm).1.isConnected = acc.1.isConnected := by
  simp only [processHand]
  by_cases hg : detectGesture lm ≠ GestureSymbol.NONE
  · rw [if_pos hg]
    exact updateGestureUI_session acc.1 (detectGesture lm) now
  · rw [if_neg hg]
    exact ⟨rfl, rfl⟩

/-- Any data message produced by one loop iteration was either already
accumulated or is a gesture message requiring a room and a connected
session. -/
theorem processHand_dataMessage (now : Int) (acc : AppState × List Output)
    (lm : LandmarkFrame) (m : OutboundMessage)
    (hm : Output.dataMessage m ∈ (processHand now acc lm).2) :
    Output.dataMessage m ∈ acc.2 ∨
      (acc.1.roomExists = true ∧ acc.1.isConnected = true ∧
        m.topic = "gesture") := by
  simp only [processHand] at hm
  by_cases hg : detectGesture lm ≠ GestureSymbol.NONE
  · rw [if_pos hg] at hm
    rcases List.mem_append.mp hm with h1 | h2
    · exact Or.inl h1
    · obtain ⟨hr, hc, hmm⟩ :=
        updateGestureUI_msgs acc.1 (detectGesture lm) now m h2
      exact Or.inr ⟨hr, hc, by rw [hmm]⟩
  · rw [if_neg hg] at hm
    exact Or.inl hm

/-- Folding the loop body over a hand list threads the already-accumulated
messages on the left. -/
theorem foldl_processHand_shift (now : Int) (hands : List LandmarkFrame) :
    ∀ acc : AppState × List Output,
      hands.foldl (processHand now) acc =
        ((hands.foldl (processHand now) (acc.1, [])).1,
         acc.2 ++ (hands.foldl (processHand now) (acc.1, [])).2) := by
  induction hands with
  | nil =>
    intro acc
    simp
  | cons h t ih =>
    intro acc
    rw [List.foldl_cons, List.foldl_cons]
    rw [processHand_shift now acc h]
    rw [ih ((processHand now (acc.1, []) h).1,
          acc.2 ++ (processHand now (acc.1, []) h).2)]
    rw [ih (processHand now (acc.1, []) h)]
    simp [List.append_assoc]

/-- Unfolding `onResults` over the first delivered hand. -/
theorem onResults_cons (s : AppState) (h : LandmarkFrame)
    (rest : List LandmarkFrame) (now : Int) :
    onResults s (h :: rest) now =
      ((onResults (processHand now (s, []) h).1 rest now).1,
       (processHand now (s, []) h).2 ++
         (onResults (processHand now (s, []) h).1 rest now).2) := by
  rw [onResults, List.foldl_cons]
  rw [foldl_processHand_shift now rest (processHand now (s, []) h)]
  rfl

/-- Any data message produced while processing a frame requires a room and
a connected session at callback entry, and is a gesture message. -/
theorem onResults_dataMessage (hands : List LandmarkFrame) :
    ∀ (s : AppState) (now : Int) (m : OutboundMessage),
      Output.dataMessage m ∈ (onResults s hands now).2 →
      s.roomExists = true ∧ s.isConnected = true ∧ m.topic = "gesture" := by
  induction hands with
  | nil =>
    intro s now m hm
    simp [onResults] at hm
  | cons h t ih =>
    intro s now m hm
    rw [onResults_cons s h t now] at hm
    rcases List.mem_append.mp hm with h1 | h2
    · rcases processHand_dataMessage now (s, []) h m h1 with hin | ⟨hr, hc, ht⟩
      · simp at hin
      · exact ⟨hr, hc, ht⟩
    · obtain ⟨hr, hc, ht⟩ := ih (processHand now (s, []) h).1 now m h2
      obtain ⟨hpr, hpc⟩ := processHand_session now (s, []) h
      exact ⟨by rw [← hpr]; exact hr, by rw [← hpc]; exact hc, ht⟩

/-- The head of `dropWhile p l`, when present, fails `p`. -/
theorem head_dropWhile_not {α : Type} (p : α → Bool) :
    ∀ (l : List α) (c : α), (l.dropWhile p).head? = some c → p c = false := by
  intro l
  induction l with
  | nil =>
    intro c h
    simp [List.dropWhile] at h
  | cons a t ih =>
    intro c h
    rw [List.dropWhile_cons] at h
    by_cases ha : p a
    · rw [if_pos ha] at h
      exact ih c h
    · rw [if_neg ha] at h
      obtain rfl : a = c := by simpa using h
      simpa using ha

/-- Dropping a `p`-prefix from both ends decomposes the list into a
`p`-prefix, the trimmed middle, and a `p`-suffix. -/
theorem trim_decomp {α : Type} (p : α → Bool) (l : List α) :
    l = l.takeWhile p ++ ((l.dropWhile p).reverse.dropWhile p).reverse ++
        ((l.dropWhile p).reverse.takeWhile p).reverse := by
  conv_lhs => rw [← List.takeWhile_append_dropWhile p l]
  rw [List.append_assoc]
  congr 1
  conv_lhs => rw [← List.reverse_reverse (l.dropWhile p),
    ← List.takeWhile_append_dropWhile p (l.dropWhile p).reverse]
  rw [List.reverse_append]

/-! Claim theorems. -/

/-- C5: for every landmark frame, if the index, middle, ring and pinky tips
all have strictly smaller `y` than their proximal joints (8 vs 6, 12 vs 10,
16 vs 14, 20 vs 18) the classifier returns Open_Palm; if all four are not
open it returns Thumb_Up exactly when the thumb tip (4) `y` is strictly
less than both the thumb joint (3) `y` and the index tip (8) `y`, and
Closed_Fist otherwise; every other openness combination returns NONE. -/
theorem detectGesture_classification (f : LandmarkFrame) :
    (((f 8).y < (f 6).y ∧ (f 12).y < (f 10).y ∧
        (f 16).y < (f 14).y ∧ (f 20).y < (f 18).y) →
      detectGesture f = GestureSymbol.Open_Palm) ∧
    ((¬((f 8).y < (f 6).y) ∧ ¬((f 12).y < (f 10).y) ∧
        ¬((f 16).y < (f 14).y) ∧ ¬((f 20).y < (f 18).y)) →
      (((f 4).y < (f 3).y ∧ (f 4).y < (f 8).y) →
        detectGesture f = GestureSymbol.Thumb_Up) ∧
      (¬((f 4).y < (f 3).y ∧ (f 4).y < (f 8).y) →
        detectGesture f = GestureSymbol.Closed_Fist)) ∧
    ((¬((f 8).y < (f 6).y ∧ (f 12).y < (f 10).y ∧
          (f 16).y < (f 14).y ∧ (f 20).y < (f 18).y) ∧
      ¬(¬((f 8).y < (f 6).y) ∧ ¬((f 12).y < (f 10).y) ∧
          ¬((f 16).y < (f 14).y) ∧ ¬((f 20).y < (f 18).y))) →
      detectGesture f = GestureSymbol.NONE) := by
  refine ⟨fun h => ?_, fun h => ⟨fun ht => ?_, fun ht => ?_⟩, fun h => ?_⟩
  · simp only [detectGesture]
    rw [if_pos h]
  · simp only [detectGesture]
    rw [if_neg (fun hc => h.1 hc.1), if_pos h, if_pos ht]
  · simp only [detectGesture]
    rw [if_neg (fun hc => h.1 hc.1), if_pos h, if_neg ht]
  · simp only [detectGesture]
    rw [if_neg h.1, if_neg h.2]

/-- Witness for C5: a concrete all-open frame classifies as Open_Palm. -/
theorem detectGesture_classification_witness :
    detectGesture palmFrame = GestureSymbol.Open_Palm :=
  (detectGesture_classification palmFrame).1 (by decide)

/-- C10: the classifier depends only on the `y` coordinates of landmarks
3, 4, 6, 8, 10, 12, 14, 16, 18 and 20: two frames agreeing there classify
identically, so no `x` coordinate (including the computed-but-unused
thumb-x comparison) influences the result. -/
theorem detectGesture_depends_only_on_y (f g : LandmarkFrame)
    (h3 : (f 3).y = (g 3).y) (h4 : (f 4).y = (g 4).y)
    (h6 : (f 6).y = (g 6).y) (h8 : (f 8).y = (g 8).y)
    (h10 : (f 10).y = (g 10).y) (h12 : (f 12).y = (g 12).y)
    (h14 : (f 14).y = (g 14).y) (h16 : (f 16).y = (g 16).y)
    (h18 : (f 18).y = (g 18).y) (h20 : (f 20).y = (g 20).y) :
    detectGesture f = detectGesture g := by
  simp only [detectGesture]
  rw [h3, h4, h6, h8, h10, h12, h14, h16, h18, h20]

/-- Witness for C10: shifting every `x` coordinate of the all-open frame
leaves the classification unchanged. -/
theorem detectGesture_depends_only_on_y_witness :
    detectGesture palmFrame = detectGesture palmFrameXShift :=
  detectGesture_depends_only_on_y palmFrame palmFrameXShift
    rfl rfl rfl rfl rfl rfl rfl rfl rfl rfl

/-- C3: for every symbol `g ≠ NONE` and timestamp `now`, the gate passes
exactly when `now - lastGestureTime > 2000` and `g ≠ lastGesture`; on a
pass it writes `lastGesture = g` and `lastGestureTime = now` and forwards
the gesture message to the transport whenever the session permits;
otherwise it returns nothing and leaves the state unchanged (the frame is
dropped, not queued). -/
theorem updateGestureUI_gate_spec (s : AppState) (g : GestureSymbol)
    (now : Int) (hg : g ≠ GestureSymbol.NONE) :
    ((now - s.lastGestureTime > 2000 ∧ g ≠ s.lastGesture) →
      (updateGestureUI s g now).1 =
        { s with lastGesture := g, lastGestureTime := now } ∧
      (updateGestureUI s g now).2 =
        (if s.roomExists ∧ s.isConnected then
          [Output.dataMessage { topic := "gesture", payload := g.text }]
         else [])) ∧
    (¬(now - s.lastGestureTime > 2000 ∧ g ≠ s.lastGesture) →
      updateGestureUI s g now = (s, [])) := by
  refine ⟨fun h => ?_, fun h => updateGestureUI_fail s g now h⟩
  rw [updateGestureUI_pass s g now h]
  exact ⟨rfl, rfl⟩

/-- Witness for C3: a passing call from the connected state writes the
gesture fields and emits the gesture message. -/
theorem updateGestureUI_gate_spec_witness :
    (updateGestureUI connectedState GestureSymbol.Open_Palm 2500).1 =
      { connectedState with lastGesture := GestureSymbol.Open_Palm,
                            lastGestureTime := 2500 } ∧
    (updateGestureUI connectedState GestureSymbol.Open_Palm 2500).2 =
      (if connectedState.roomExists ∧ connectedState.isConnected then
        [Output.dataMessage
          { topic := "gesture", payload := GestureSymbol.Open_Palm.text }]
       else []) :=
  (updateGestureUI_gate_spec connectedState GestureSymbol.Open_Palm 2500
    (by decide)).1 (by decide)

/-- C4 counterexample: Open_Palm emits at t = 2500 from the connected
initial gesture state, but a distinct Thumb_Up 10ms later is dropped with
the state unchanged — distinctness does not bypass the 2000ms gate, so the
claim that both symbols emit is false. -/
theorem distinct_10ms_counterexample :
    (updateGestureUI connectedState GestureSymbol.Open_Palm 2500).2 =
      [Output.dataMessage { topic := "gesture", payload := "Open_Palm" }] ∧
    updateGestureUI (updateGestureUI connectedState GestureSymbol.Open_Palm 2500).1
        GestureSymbol.Thumb_Up 2510 =
      ((updateGestureUI connectedState GestureSymbol.Open_Palm 2500).1, []) := by
  decide

/-- C4 amended: when two distinct non-NONE symbols arrive 10ms apart and
the first emits, only the first is emitted; the second is dropped because
the 2000ms time gate applies regardless of distinctness. -/
theorem distinct_10ms_second_suppressed (s : AppState)
    (g1 g2 : GestureSymbol) (t : Int)
    (h1 : t - s.lastGestureTime > 2000) (h2 : g1 ≠ s.lastGesture)
    (h3 : g2 ≠ g1) :
    (updateGestureUI s g1 t).1.lastGesture = g1 ∧
    (updateGestureUI s g1 t).1.lastGestureTime = t ∧
    updateGestureUI (updateGestureUI s g1 t).1 g2 (t + 10) =
      ((updateGestureUI s g1 t).1, []) := by
  rw [updateGestureUI_pass s g1 t ⟨h1, h2⟩]
  refine ⟨rfl, rfl, ?_⟩
  refine updateGestureUI_fail _ g2 (t + 10) (fun hcc => ?_)
  have h10 : t + 10 - t > 2000 := hcc.1
  omega

/-- Witness for C4 amended: concrete instantiation at t = 2500 with
Open_Palm then Thumb_Up 10ms later. -/
theorem distinct_10ms_second_suppressed_witness :
    (updateGestureUI connectedState GestureSymbol.Open_Palm 2500).1.lastGesture =
      GestureSymbol.Open_Palm ∧
    (updateGestureUI connectedState GestureSymbol.Open_Palm 2500).1.lastGestureTime =
      2500 ∧
    updateGestureUI (updateGestureUI connectedState GestureSymbol.Open_Palm 2500).1
        GestureSymbol.Thumb_Up (2500 + 10) =
      ((updateGestureUI connectedState GestureSymbol.Open_Palm 2500).1, []) :=
  distinct_10ms_second_suppressed connectedState GestureSymbol.Open_Palm
    GestureSymbol.Thumb_Up 2500 (by decide) (by decide) (by decide)

/-- C9: the gate mutates the gesture state independently of the session
state: a gesture passing the time-and-distinctness test while
`isConnected = false` still records `lastGesture` and `lastGestureTime`
although nothing is dispatched, and afterwards the same symbol can never
pass the gate again (in any session state and at any time) until a
different symbol intervenes — so a gesture performed while disconnected
suppresses re-emission of that gesture after a later connect. -/
theorem gate_mutates_while_disconnected (s : AppState) (g : GestureSymbol)
    (now : Int) (hconn : s.isConnected = false)
    (htime : now - s.lastGestureTime > 2000) (hsym : g ≠ s.lastGesture) :
    (updateGestureUI s g now).1.lastGesture = g ∧
    (updateGestureUI s g now).1.lastGestureTime = now ∧
    (updateGestureUI s g now).2 = [] ∧
    (∀ (s2 : AppState) (later : Int), s2.lastGesture = g →
      updateGestureUI s2 g later = (s2, [])) := by
  rw [updateGestureUI_pass s g now ⟨htime, hsym⟩]
  have hc : ¬(s.roomExists ∧ s.isConnected) := by
    intro hcc
    rw [hconn] at hcc
    exact absurd hcc.2 (by decide)
  refine ⟨rfl, rfl, ?_, ?_⟩
  · rw [if_neg hc]
  · intro s2 later hlast
    exact updateGestureUI_fail s2 g later (fun hcc => hcc.2 hlast.symm)

/-- Witness for C9: a gesture while disconnected updates the gesture state,
emits nothing, and the same gesture is still suppressed much later in the
connected state that keeps `lastGesture`. -/
theorem gate_mutates_while_disconnected_witness :
    (updateGestureUI initState GestureSymbol.Open_Palm 2500).1.lastGesture =
      GestureSymbol.Open_Palm ∧
    (updateGestureUI initState GestureSymbol.Open_Palm 2500).1.lastGestureTime =
      2500 ∧
    (updateGestureUI initState GestureSymbol.Open_Palm 2500).2 = [] ∧
    updateGestureUI connectedStateAfterPalm GestureSymbol.Open_Palm 99999 =
      (connectedStateAfterPalm, []) := by
  obtain ⟨a, b, c, d⟩ :=
    gate_mutates_while_disconnected initState GestureSymbol.Open_Palm 2500
      rfl (by decide) (by decide)
  exact ⟨a, b, c, d connectedStateAfterPalm 99999 rfl⟩

/-- C6: `sendChatMessage` trims leading/trailing whitespace before sending
(every emitted message carries exactly the trimmed text, which is the
input minus a whitespace prefix and suffix and itself starts and ends
non-whitespace), and empty-after-trim input is silently discarded: no
message, no error, no state change. -/
theorem sendChatMessage_trims (s : AppState) (input : String) :
    (sendChatMessage s input).1 = s ∧
    (∀ o ∈ (sendChatMessage s input).2,
      o = Output.dataMessage { topic := "chat_message", payload := jsTrim input }) ∧
    (jsTrim input = "" → (sendChatMessage s input).2 = []) ∧
    (∃ pre post,
      input.data = pre ++ (jsTrim input).data ++ post ∧
      (∀ c ∈ pre, isJsWhitespace c = true) ∧
      (∀ c ∈ post, isJsWhitespace c = true)) ∧
    (∀ c, (jsTrim input).data.head? = some c → isJsWhitespace c = false) ∧
    (∀ c, (jsTrim input).data.getLast? = some c → isJsWhitespace c = false) := by
  refine ⟨?_, ?_, ?_, ?_, ?_, ?_⟩
  · simp only [sendChatMessage]
    by_cases hcond : jsTrim input = "" ∨ ¬s.roomExists
    · rw [if_pos hcond]
    · rw [if_neg hcond]
  · intro o ho
    simp only [sendChatMessage] at ho
    by_cases hcond : jsTrim input = "" ∨ ¬s.roomExists
    · rw [if_pos hcond] at ho
      simp at ho
    · rw [if_neg hcond] at ho
      simpa using ho
  · intro he
    simp only [sendChatMessage]
    rw [if_pos (Or.inl he)]
  · refine ⟨input.data.takeWhile isJsWhitespace,
      ((input.data.dropWhile isJsWhitespace).reverse.takeWhile isJsWhitespace).reverse,
      trim_decomp isJsWhitespace input.data,
      fun c hc => List.mem_takeWhile_imp hc,
      fun c hc => List.mem_takeWhile_imp (List.mem_reverse.mp hc)⟩
  · intro c hc
    have hm : input.data.dropWhile isJsWhitespace =
        (jsTrim input).data ++
          ((input.data.dropWhile isJsWhitespace).reverse.takeWhile
            isJsWhitespace).reverse := by
      conv_lhs => rw [← List.reverse_reverse (input.data.dropWhile isJsWhitespace),
        ← List.takeWhile_append_dropWhile isJsWhitespace
            (input.data.dropWhile isJsWhitespace).reverse]
      rw [List.reverse_append]
      rfl
    cases htr : (jsTrim input).data with
    | nil =>
      rw [htr] at hc
      simp at hc
    | cons a tl =>
      rw [htr] at hc
      obtain rfl : a = c := by simpa using hc
      refine head_dropWhile_not isJsWhitespace input.data a ?_
      rw [hm, htr]
      rfl
  · intro c hc
    have hrev : ((input.data.dropWhile isJsWhitespace).reverse.dropWhile
        isJsWhitespace).reverse.getLast? = some c := hc
    rw [List.getLast?_reverse] at hrev
    exact head_dropWhile_not isJsWhitespace _ c hrev

/-- Witness for C6: whitespace-only input yields no message; the state is
returned unchanged on a real send. -/
theorem sendChatMessage_trims_witness :
    (sendChatMessage connectedState "   ").2 = [] ∧
    (sendChatMessage connectedState "  hi ").1 = connectedState :=
  ⟨(sendChatMessage_trims connectedState "   ").2.2.1 (by decide),
   (sendChatMessage_trims connectedState "  hi ").1⟩

/-- C1 counterexample: after a successful connect followed by an explicit
disconnect, `isConnected = false` yet `sendChatMessage "hi"` still hands a
chat message to the transport, because its guard tests `room` (still
non-null) rather than `isConnected`. -/
theorem chat_sent_while_disconnected :
    (run initState disconnTrace).isConnected = false ∧
    Output.dataMessage { topic := "chat_message", payload := "hi" } ∈
      (step (run initState disconnTrace) (Event.sendClick "hi")).2 := by
  decide

/-- C1 amended: every OutboundMessage handed to the transport requires a
non-null `room`; a gesture message additionally requires
`isConnected = true`; but a chat message only requires the room, so chat
can still be sent while `isConnected = false` once a room object exists
(e.g. after an explicit disconnect). -/
theorem outbound_requires_room (s : AppState) (e : Event)
    (m : OutboundMessage)
    (hm : Output.dataMessage m ∈ (step s e).2) :
    s.roomExists = true ∧
      (m.topic = "chat_message" ∨
        (m.topic = "gesture" ∧ s.isConnected = true)) := by
  cases e with
  | connectClick =>
    simp only [step, connectBtnClick, connectToLiveKit] at hm
    split_ifs at hm <;> simp at hm
  | tokenRes i ok =>
    simp only [step, resolveToken] at hm
    split at hm
    · split_ifs at hm <;> simp at hm
    · simp at hm
  | roomConnectRes i ok =>
    simp only [step, resolveRoomConnect] at hm
    split at hm
    · split_ifs at hm <;> simp at hm
    · simp at hm
  | micEnableRes i ok =>
    simp only [step, resolveMicEnable] at hm
    split at hm
    · split_ifs at hm <;> simp at hm
    · simp at hm
  | micClick =>
    simp only [step, micBtnClick] at hm
    split_ifs at hm <;> simp at hm
  | sendClick input =>
    simp only [step, sendChatMessage] at hm
    split_ifs at hm with hcond
    · simp at hm
    · have hmm : m = { topic := "chat_message", payload := jsTrim input } := by
        simpa using hm
      push_neg at hcond
      exact ⟨hcond.2, Or.inl (by rw [hmm])⟩
  | frame hands now =>
    obtain ⟨hr, hc, ht⟩ := onResults_dataMessage hands s now m hm
    exact ⟨hr, Or.inr ⟨ht, hc⟩⟩

/-- Witness for C1 amended: the chat message sent from the connected state
satisfies the invariant. -/
theorem outbound_requires_room_witness :
    connectedState.roomExists = true ∧
      (({ topic := "chat_message", payload := "hi" } : OutboundMessage).topic =
          "chat_message" ∨
        (({ topic := "chat_message", payload := "hi" } : OutboundMessage).topic =
            "gesture" ∧ connectedState.isConnected = true)) :=
  outbound_requires_room connectedState (Event.sendClick "hi")
    { topic := "chat_message", payload := "hi" } (by decide)

/-- C2 counterexample: a second connect click while the first attempt is
still awaiting its token fetch is not ignored — it starts a second token
fetch and leaves two attempts in flight. -/
theorem double_connect_double_fetch :
    (step initState Event.connectClick).2 = [Output.tokenFetchStarted] ∧
    (step (step initState Event.connectClick).1 Event.connectClick).2 =
      [Output.tokenFetchStarted] ∧
    (step (step initState Event.connectClick).1 Event.connectClick).1.inflight =
      [ConnectPhase.awaitToken, ConnectPhase.awaitToken] := by
  decide

/-- C2 amended: the only guard in `connectToLiveKit` is `isConnected`; a
connect request while already connected returns immediately, but a request
while `isConnected = false` — in particular while a previous attempt is
still in flight (CONNECTING) — always starts another token fetch and
queues another attempt. -/
theorem connect_guard_only_isConnected (s : AppState) :
    (s.isConnected = true → connectToLiveKit s = (s, [])) ∧
    (s.isConnected = false →
      connectToLiveKit s =
        ({ s with inflight := s.inflight ++ [ConnectPhase.awaitToken] },
         [Output.tokenFetchStarted])) := by
  constructor <;> intro h <;> simp [connectToLiveKit, h]

/-- Witness for C2 amended: from the CONNECTING state a further connect
request starts a second token fetch. -/
theorem connect_guard_only_isConnected_witness :
    connectToLiveKit connectingState =
      ({ connectingState with
          inflight := connectingState.inflight ++ [ConnectPhase.awaitToken] },
       [Output.tokenFetchStarted]) :=
  (connect_guard_only_isConnected connectingState).2 rfl

/-- C7 counterexample: in the DISCONNECTED state reached by an explicit
disconnect, a mic click is not a no-op: it flips `isMicOn` and issues a
transport microphone operation, because the guard tests `room` (still
non-null) rather than the session state. -/
theorem mic_toggle_after_disconnect_not_noop :
    (run initState disconnTrace).isConnected = false ∧
    (step (run initState disconnTrace) Event.micClick).1 ≠
      run initState disconnTrace ∧
    (step (run initState disconnTrace) Event.micClick).2 =
      [Output.micOp false] := by
  decide

/-- C7 amended: a mic click is a no-op exactly when `room` is null (the
initial DISCONNECTED state, and CONNECTING before the token resolves);
once a room object exists — including after an explicit disconnect — it
flips `isMicOn` and issues a transport microphone operation. -/
theorem micClick_noop_iff_no_room (s : AppState) :
    (s.roomExists = false → micBtnClick s = (s, [])) ∧
    (s.roomExists = true →
      micBtnClick s =
        ({ s with isMicOn := !s.isMicOn }, [Output.micOp (!s.isMicOn)])) := by
  constructor <;> intro h <;> simp [micBtnClick, h]

/-- Witness for C7 amended: in the initial state the mic click does
nothing. -/
theorem micClick_noop_iff_no_room_witness :
    micBtnClick initState = (initState, []) :=
  (micClick_noop_iff_no_room initState).1 rfl

/-- C8 counterexample: a callback delivering two hands — the first
classifying NONE, the second Open_Palm — lets the second hand drive the
emission gate (the state records Open_Palm), while the first hand alone
leaves the state untouched; hands beyond the first do influence the core. -/
theorem second_hand_influences_core :
    (onResults initState [mixedFrame, palmFrame] 3000).1.lastGesture =
      GestureSymbol.Open_Palm ∧
    (onResults initState [mixedFrame] 3000).1 = initState := by
  decide

/-- C8 amended: `onResults` processes every delivered hand in order — the
first hand is processed and the rest of the list is then processed from
the resulting state — so restriction to one hand comes only from the
landmark-source configuration (`maxNumHands = 1`), not from the callback. -/
theorem onResults_processes_every_hand (s : AppState) (h : LandmarkFrame)
    (rest : List LandmarkFrame) (now : Int) :
    onResults s (h :: rest) now =
      ((onResults (processHand now (s, []) h).1 rest now).1,
       (processHand now (s, []) h).2 ++
         (onResults (processHand now (s, []) h).1 rest now).2) ∧
    maxNumHands = 1 :=
  ⟨onResults_cons s h rest now, rfl⟩
